import Mathlib

/-
Shallow embedding of the openwifi side-channel capture pipeline core:

  owpy/capture/data_parsers.py      (binary decoder: CSI and IQ paths)
  owpy/capture/file_parser.py       (chunked file reader)
  owpy/apps/capture_iq_app_udp.py   (UDP receive loop and coordinator loop predicate)

Buffers of 16-bit words are List Nat (values as produced by np.frombuffer with
dtype uint16); signed reinterpretation is explicit (toInt16).  Python
exceptions are modelled with Except PyErr: an Except.error value stands for an
exception propagating out of the modelled function (an uncaught crash), while
an in-band failure value (return None in Python) is an Option none inside
Except.ok.
-/

set_option maxHeartbeats 1000000
set_option maxRecDepth 100000

/-- Python exception kinds reachable in the modelled code paths. -/
inductive PyErr where
  | valueError
  | typeError
  | indexError
  | zeroDivisionError
  | structError
deriving DecidableEq

/-- Python round() applied to the exact rational num / den (round half to
even).  The source rounds a float quotient; the float result can differ from
the exact one only near ties, and every theorem below uses the rounded value
solely through the product check rows * cols = len, which no rounding choice
can make true for a non-divisible length and which the exact integer quotient
satisfies for a divisible one. -/
def pyRound (num den : Nat) : Nat :=
  if 2 * (num % den) < den then num / den
  else if den < 2 * (num % den) then num / den + 1
  else if num / den % 2 = 0 then num / den else num / den + 1

/-- numpy ndarray.reshape([rows, cols]) of a flat vector: succeeds exactly
when the element count matches, otherwise raises ValueError. -/
def npReshape (l : List Nat) (rows cols : Nat) : Except PyErr (List (List Nat)) :=
  if l.length = rows * cols then
    .ok ((List.range rows).map (fun i => (l.drop (i * cols)).take cols))
  else .error .valueError

/-- astype('int16') reinterpretation of a 16-bit word. -/
def toInt16 (v : Nat) : Int :=
  if v % 65536 < 32768 then (v % 65536 : Int) else (v % 65536 : Int) - 65536

/-- get_uint64 of data_parsers.py for one row: reconstructs a 64-bit unsigned
from 4 consecutive 16-bit words (w0 + 2^16 w1 + 2^32 w2 + 2^48 w3). -/
def get_uint64 (row : List Nat) (start_idx : Nat) : Nat :=
  row.getD start_idx 0 + 2 ^ 16 * row.getD (start_idx + 1) 0
    + 2 ^ 32 * row.getD (start_idx + 2) 0 + 2 ^ 48 * row.getD (start_idx + 3) 0

/-- Little-endian 16-bit words of a 64-bit value (wire-format encoder used to
build concrete transaction buffers for witnesses). -/
def u16words (v : Nat) : List Nat :=
  [v % 2 ^ 16, v / 2 ^ 16 % 2 ^ 16, v / 2 ^ 32 % 2 ^ 16, v / 2 ^ 48 % 2 ^ 16]

/-! Constants of data_parsers.py (CSI section). -/

def LO_FREQ_BIT_WIDTH : Nat := 29

def CSI_LEN_DMA_SYM : Nat := 56

def EQUALIZER_LEN_DMA_SYM : Nat := 56 - 4

def CSI_LEN_HALF_DMA_SYM : Nat := 28

def CSI_HEADER_LEN_DMA_SYM : Nat := 8

def CSI_CAPTURE_TIMESTAMP_IDX : Nat := 0 * 4

def CSI_FREQ_OFFSET_EST_IDX : Nat := 1 * 4

def CSI_CAPTURE_LO_FREQ_OFFSET : Nat := 32

/-- reshape_csi_side_info16: reshapes the uint16 stream into
[num_frames, num_int16_per_trans].  The numpy reshape ValueError is NOT
caught in the source, so it surfaces here as Except.error (an uncaught
exception escaping the function). -/
def reshape_csi_side_info16 (side_info_uint16 : List Nat) (num_eq : Nat) :
    Except PyErr (List (List Nat) × Nat × Nat) :=
  let num_dma_symbol_per_trans :=
    CSI_HEADER_LEN_DMA_SYM + CSI_LEN_DMA_SYM + num_eq * EQUALIZER_LEN_DMA_SYM
  let num_int16_per_trans := num_dma_symbol_per_trans * 4
  let num_frames := pyRound side_info_uint16.length num_int16_per_trans
  match npReshape side_info_uint16 num_frames num_int16_per_trans with
  | .ok r => .ok (r, num_frames, num_int16_per_trans)
  | .error e => .error e

/-- reshape_iq_side_info16: the same reshape wrapped in try/except ValueError,
returning None (modelled .ok none) on a length mismatch.  With
num_dma_symbol_per_trans = 0 the expression round(len/0), evaluated before
the try block, raises ZeroDivisionError, which the except clause does not
catch. -/
def reshape_iq_side_info16 (buffer : List Nat) (num_dma_symbol_per_trans : Nat) :
    Except PyErr (Option (List (List Nat))) :=
  let num_int16_per_trans := num_dma_symbol_per_trans * 4
  if num_int16_per_trans = 0 then .error .zeroDivisionError
  else
    let num_frames := pyRound buffer.length num_int16_per_trans
    match npReshape buffer num_frames num_int16_per_trans with
    | .ok r => .ok (some r)
    | .error _ => .ok none

/-- Python / numpy basic slice l[start:stop:step] with nonnegative bounds and
positive step: elements at indices start, start+step, ... below
min(stop, len). -/
def pySliceStep (l : List Int) (start stop step : Nat) : List Int :=
  (List.range ((min stop l.length - start + (step - 1)) / step)).map
    (fun k => l.getD (start + k * step) 0)

/-- CSI payload extraction of parse_csi_side_info for one reshaped int16 row:
tmp_vec_i / tmp_vec_q are the strided slices starting at word
4*CSI_HEADER_LEN_DMA_SYM (resp. +1) stopping before num_uint16_per_trans - 1,
and the csi row is the half-swap csi[:28] = tmp_vec[28:56],
csi[28:] = tmp_vec[0:28].  The complex vectors are represented by their two
planes (in-phase component, quadrature component). -/
def csiFromRow (row : List Int) : List Int × List Int :=
  let n := row.length
  let tmp_vec_i := pySliceStep row (4 * CSI_HEADER_LEN_DMA_SYM) (n - 1) 4
  let tmp_vec_q := pySliceStep row (4 * CSI_HEADER_LEN_DMA_SYM + 1) (n - 1) 4
  (((tmp_vec_i.drop CSI_LEN_HALF_DMA_SYM).take CSI_LEN_HALF_DMA_SYM)
      ++ tmp_vec_i.take CSI_LEN_HALF_DMA_SYM,
   ((tmp_vec_q.drop CSI_LEN_HALF_DMA_SYM).take CSI_LEN_HALF_DMA_SYM)
      ++ tmp_vec_q.take CSI_LEN_HALF_DMA_SYM)

/-- Equalizer extraction of parse_csi_side_info for one row:
tmp_vec[56 : 56 + num_eq * 52], again as the two planes. -/
def eqFromRow (row : List Int) (num_eq : Nat) : List Int × List Int :=
  let n := row.length
  let tmp_vec_i := pySliceStep row (4 * CSI_HEADER_LEN_DMA_SYM) (n - 1) 4
  let tmp_vec_q := pySliceStep row (4 * CSI_HEADER_LEN_DMA_SYM + 1) (n - 1) 4
  ((tmp_vec_i.drop CSI_LEN_DMA_SYM).take (num_eq * EQUALIZER_LEN_DMA_SYM),
   (tmp_vec_q.drop CSI_LEN_DMA_SYM).take (num_eq * EQUALIZER_LEN_DMA_SYM))

/-- Python tuple-unpacking of a string into two targets (i, name = s):
succeeds only for a 2-character string, otherwise raises ValueError. -/
def unpack2 (s : String) : Except PyErr (Char × Char) :=
  match s.data with
  | [a, b] => .ok (a, b)
  | _ => .error .valueError

/-- The loop `for i, name in csi_timestamp_names[1:]` of
parse_csi_side_info_header.  Each iteration tuple-unpacks the name STRING
itself into (i, name): a name whose length is not 2 raises ValueError, and a
2-character name then reaches `i + (TIMESTAMPS_EXTRA_IDX // 4)` with i a
1-character str, raising TypeError.  Hence the loop completes only over an
empty list. -/
def csiHeaderLoop : List String → Except PyErr Unit
  | [] => .ok ()
  | s :: _ =>
    match unpack2 s with
    | .ok _ => .error .typeError
    | .error e => .error e

/-- parse_csi_side_info_header: builds {names[0]: get_uint64(rows, 0)}
(IndexError on an empty name list), then iterates csiHeaderLoop over the
remaining names, then extracts the LO frequency (29-bit field from bit 32 of
DMA symbol 1, scaled by 10).  The timestamp dict is represented by the list
of its entry values; the loop raising means only the single-name dict shape
is ever returned. -/
def parse_csi_side_info_header (rows : List (List Nat)) (names : List String) :
    Except PyErr (List (List Nat) × List Nat) :=
  if names = [] then .error .indexError
  else
    match csiHeaderLoop (names.drop 1) with
    | .error e => .error e
    | .ok _ =>
      .ok ([rows.map (fun r => get_uint64 r CSI_CAPTURE_TIMESTAMP_IDX)],
        rows.map (fun r =>
          (get_uint64 r CSI_FREQ_OFFSET_EST_IDX / 2 ^ CSI_CAPTURE_LO_FREQ_OFFSET
            % 2 ^ LO_FREQ_BIT_WIDTH) * 10))

/-- Decoded CSI record of parse_csi_side_info.  freq_offset_raw keeps the raw
int16 factor of the frequency-offset estimate (its scaling by
20e6/512/(2*pi) is a real-number operation outside the integer model and not
used by any claim). -/
structure CsiParsed where
  freq_offset_raw : List Int
  csiRe : List (List Int)
  csiIm : List (List Int)
  eqRe : List (List Int)
  eqIm : List (List Int)
  timestamps : List (List Nat)
  lo_freq : List Nat
  num_frames : Nat
deriving DecidableEq

/-- parse_csi_side_info: reshape (whose ValueError is uncaught), signed
reinterpretation, freq-offset factor, half-swapped csi rows, equalizer rows
when num_eq > 0, then the header parse (which raises on every name list with
more than one entry, see csiHeaderLoop). -/
def parse_csi_side_info (side_info_uint16 : List Nat) (num_eq : Nat)
    (csi_timestamp_names : List String) : Except PyErr CsiParsed :=
  match reshape_csi_side_info16 side_info_uint16 num_eq with
  | .error e => .error e
  | .ok (rows, num_frames, _) =>
    let rowsI := rows.map (fun r => r.map toInt16)
    match parse_csi_side_info_header rows csi_timestamp_names with
    | .error e => .error e
    | .ok (ts, lo) =>
      .ok ⟨rowsI.map (fun r => r.getD CSI_FREQ_OFFSET_EST_IDX 0),
        rowsI.map (fun r => (csiFromRow r).1),
        rowsI.map (fun r => (csiFromRow r).2),
        if 0 < num_eq then rowsI.map (fun r => (eqFromRow r num_eq).1) else [],
        if 0 < num_eq then rowsI.map (fun r => (eqFromRow r num_eq).2) else [],
        ts, lo, num_frames⟩

/-- CSI_TIMESTAMP_NAMES of owpy/files/files.py. -/
def CSI_TIMESTAMP_NAMES : List String :=
  ["timestamp_phy_tx_start", "timestamp_phy_tx_started",
   "timestamp_tx_intf_iq0_sample0", "timestamp_short_preamble_detected",
   "timestamp_long_preamble_detected", "timestamp_csi_valid",
   "timestamp_pkt_header_valid_strobe"]

/-! Constants of data_parsers.py (IQ section). -/

def IQ_HEADER_LEN_DMA_SYM : Nat := 3

def IQ_CAPTURE_TIMESTAMP_IDX : Nat := 0 * 4

def IQ_CAPTURE_LO_FREQ_IDX : Nat := 1 * 4

def IQ_CAPTURE_LO_FREQ_OFFSET : Nat := 32

def IQ_CAPTURE_ALL_ANTENNA_OFFSET : Nat := 61

def IQ_CAPTURE_TRIGGER_SRC_OFFSET : Nat := 62

def IQ_CAPTURE_IQ_IDX : Nat := 3 * 4

/-- Per-frame header fields decoded by parse_iq_side_info_header. -/
structure IqHeader where
  timestamp : List Nat
  lo_freq : List Nat
  trigger_src : List Nat
  capture_all_antenna : List Nat
  tx_start_len : Nat
deriving DecidableEq

/-- parse_iq_side_info_header: reshape (a None propagates as the all-None
return, modelled .ok none), then per-frame 64-bit timestamp, the 29-bit LO
deca-Hz field from bit 32 of the metadata word scaled by 10, the
capture-all-antenna bit 61, the trigger-source bit 62, and the fixed TX
start offset (data start symbol + iq_len + 1 + 1). -/
def parse_iq_side_info_header (buffer_uint16 : List Nat)
    (num_dma_symbol_per_trans iq_len : Nat) : Except PyErr (Option IqHeader) :=
  match reshape_iq_side_info16 buffer_uint16 num_dma_symbol_per_trans with
  | .error e => .error e
  | .ok none => .ok none
  | .ok (some rows) =>
    .ok (some
      ⟨rows.map (fun r => get_uint64 r IQ_CAPTURE_TIMESTAMP_IDX),
       rows.map (fun r =>
         (get_uint64 r IQ_CAPTURE_LO_FREQ_IDX / 2 ^ IQ_CAPTURE_LO_FREQ_OFFSET
           % 2 ^ LO_FREQ_BIT_WIDTH) * 10),
       rows.map (fun r =>
         get_uint64 r IQ_CAPTURE_LO_FREQ_IDX / 2 ^ IQ_CAPTURE_TRIGGER_SRC_OFFSET % 2),
       rows.map (fun r =>
         get_uint64 r IQ_CAPTURE_LO_FREQ_IDX / 2 ^ IQ_CAPTURE_ALL_ANTENNA_OFFSET % 2),
       IQ_CAPTURE_IQ_IDX / 4 + iq_len + 1 + 1⟩)

/-! ## Receive loop (udp_data_receiver of capture_iq_app_udp.py)

The subprocess loop is modelled as a step machine driven by a trace of
outcomes of UDPHandler.receive_data.  Loggers and stdout prints other than
the events the loop acts on are not modelled; the log records which handler
fired. -/

/-- Result of one UDPHandler.receive_data call, as consumed by the loop:
the sentinel strings "timeout" / "keyboard_interrupt" / "exception", or a
received datagram payload (an empty payload is falsy and skips the whole
handling block). -/
inductive RecvOutcome where
  | timeout
  | kbInterrupt
  | exc
  | data (payload : List Nat)
deriving DecidableEq

/-- Events the loop emits before terminating a branch. -/
inductive RecvLog where
  | timeoutExceeded
  | kbLog
  | excLog
  | queueFullWarning
  | queueErrorWarning
  | receiverError
deriving DecidableEq

/-- Shared state of the receive loop: its consecutive-timeout counter, the
two Manager().Event() signals (udp_fail_event and shutdown_event), the
bounded queue contents (queueCap none = unbounded, as created at line 90 of
capture_iq_app_udp.py), and the emitted log events. -/
structure RecvState where
  timeoutCount : Nat
  shutdown : Bool
  fault : Bool
  queue : List (List Nat)
  queueCap : Option Nat
  log : List RecvLog
deriving DecidableEq

def initRecvState (cap : Option Nat) : RecvState :=
  ⟨0, false, false, [], cap, []⟩

/-- Whether queue.put_nowait would raise queue.Full. -/
def isQueueFull (s : RecvState) : Bool :=
  match s.queueCap with
  | none => false
  | some c => c ≤ s.queue.length

/-- One loop iteration body of udp_data_receiver after receive_data returned
o (threshold max_timeout_count = maxTC).  Returns the new state and whether
the loop continues.

The full-queue branch reflects the actual exception flow of the source: the
clause `except Queue.Full` refers to multiprocessing.Queue, a context-bound
function object with no attribute Full, so when put_nowait raises queue.Full
the evaluation of the except clause itself raises AttributeError; that
AttributeError propagates out of the inner try and the while loop and is
caught by the outer `except Exception` of udp_data_receiver, which logs a
generic receiver error (receiverError).  The warning 'Queue is full,
dropping data' (queueFullWarning) is dead code, and neither signal is set on
this path. -/
def recvStep (maxTC : Nat) (s : RecvState) (o : RecvOutcome) : RecvState × Bool :=
  match o with
  | .timeout =>
    if maxTC < s.timeoutCount + 1 then
      ({ s with timeoutCount := s.timeoutCount + 1, fault := true, shutdown := true,
                log := s.log ++ [.timeoutExceeded] }, false)
    else ({ s with timeoutCount := s.timeoutCount + 1 }, true)
  | .kbInterrupt => ({ s with shutdown := true, log := s.log ++ [.kbLog] }, false)
  | .exc => ({ s with shutdown := true, log := s.log ++ [.excLog] }, false)
  | .data p =>
    if p.isEmpty then (s, true)
    else if isQueueFull s then
      ({ s with log := s.log ++ [.receiverError] }, false)
    else ({ s with queue := s.queue ++ [p], timeoutCount := 0 }, true)

/-- udp_data_receiver run on a trace of receive outcomes: checks the two
signals before every receive call, then performs the iteration body.
Returns the final state and the number of receive attempts performed. -/
def udp_data_receiver (maxTC : Nat) : RecvState → List RecvOutcome → RecvState × Nat
  | s, [] => (s, 0)
  | s, o :: rest =>
    if s.shutdown || s.fault then (s, 0)
    else
      match recvStep maxTC s o with
      | (s1, true) =>
        match udp_data_receiver maxTC s1 rest with
        | (s2, n) => (s2, n + 1)
      | (s1, false) => (s1, 1)

/-! ## Coordinator loop predicate (continue_loop of capture_iq_app_udp.py) -/

/-- continue_loop: sampling_time and the elapsed wall-clock time
TIMER() - start are modelled as exact integers (the source compares floats;
only order and equality with -1 matter).  max_wait_time defaults to 60 in
the source. -/
def continue_loop (sampling_time elapsed : Int) (frame_idx : Nat)
    (shutdown : Bool) (max_wait_time : Int) : Bool :=
  if shutdown then false
  else if sampling_time = -1 ∨ (frame_idx = 0 ∧ elapsed < max_wait_time) then true
  else decide (elapsed < sampling_time)

/-! ## Chunked file reader (read_data_from_file of file_parser.py)

The file is a byte list.  file.read(n) is take/drop; struct.unpack('I', b)
and ('Q', b) require exactly 4 resp. 8 bytes and raise struct.error
otherwise; a read that returns zero bytes is falsy and breaks the loop. -/

/-- Little-endian 32-bit value of the first 4 bytes. -/
def u32le (b : List Nat) : Nat :=
  b.getD 0 0 + 2 ^ 8 * b.getD 1 0 + 2 ^ 16 * b.getD 2 0 + 2 ^ 24 * b.getD 3 0

/-- Little-endian 64-bit value of the first 8 bytes. -/
def u64le (b : List Nat) : Nat :=
  b.getD 0 0 + 2 ^ 8 * b.getD 1 0 + 2 ^ 16 * b.getD 2 0 + 2 ^ 24 * b.getD 3 0
    + 2 ^ 32 * b.getD 4 0 + 2 ^ 40 * b.getD 5 0 + 2 ^ 48 * b.getD 6 0
    + 2 ^ 56 * b.getD 7 0

/-- The chunk header magic 0xDEADBEEF of file_parser.py. -/
def HEADER : Nat := 0xDEADBEEF

/-- read_data_from_file: repeatedly read a 4-byte header (EOF with zero bytes
breaks, 1-3 bytes raise struct.error), skip 4 bytes not matching the magic,
read an 8-byte length (same EOF/short behaviour), read that many payload
bytes (a short payload is discarded and scanning continues), and collect the
payloads.  A raised struct.error aborts the whole call, losing the payloads
collected so far, which the recursive cons-after-return formulation mirrors
exactly. -/
def read_data_from_file (file : List Nat) : Except PyErr (List (List Nat)) :=
  if file = [] then .ok []
  else if file.length < 4 then .error .structError
  else if u32le (file.take 4) = HEADER then
    if file.drop 4 = [] then .ok []
    else if (file.drop 4).length < 8 then .error .structError
    else if (((file.drop 4).drop 8).take (u64le ((file.drop 4).take 8))).length
              = u64le ((file.drop 4).take 8) then
      match read_data_from_file (((file.drop 4).drop 8).drop (u64le ((file.drop 4).take 8))) with
      | .ok l => .ok ((((file.drop 4).drop 8).take (u64le ((file.drop 4).take 8))) :: l)
      | .error e => .error e
    else read_data_from_file (((file.drop 4).drop 8).drop (u64le ((file.drop 4).take 8)))
  else read_data_from_file (file.drop 4)
termination_by file.length
decreasing_by
  all_goals simp only [List.length_drop]
  all_goals omega

/-- Byte encoder for the chunk framing [magic][64-bit length][payload],
used to build concrete well-formed chunk files. -/
def u64bytes (v : Nat) : List Nat :=
  [v % 2 ^ 8, v / 2 ^ 8 % 2 ^ 8, v / 2 ^ 16 % 2 ^ 8, v / 2 ^ 24 % 2 ^ 8,
   v / 2 ^ 32 % 2 ^ 8, v / 2 ^ 40 % 2 ^ 8, v / 2 ^ 48 % 2 ^ 8, v / 2 ^ 56 % 2 ^ 8]

def headerBytes : List Nat := [0xEF, 0xBE, 0xAD, 0xDE]

def mkChunk (p : List Nat) : List Nat := headerBytes ++ (u64bytes p.length ++ p)

/-! ## Concrete inputs used by counterexamples and witnesses -/

/-- One well-formed CSI transaction (256 words, num_eq = 0) whose first DMA
symbol is the 64-bit value 1 (little-endian words 0x0001,0,0,0). -/
def c4buf : List Nat := u16words 1 ++ List.replicate 252 0

/-- One well-formed CSI transaction (as int16 row) with pairwise distinct
word values 0..255. -/
def row256 : List Int := (List.range 256).map (fun k => (k : Int))

/-- One IQ transaction (3 DMA symbols, header only) whose metadata word has
bit 61 set and the value 100000 placed at bit 33. -/
def c3buf : List Nat := u16words 0 ++ u16words (2 ^ 61 + 100000 * 2 ^ 33) ++ u16words 0

/-- Concatenation of well-formed chunk encodings. -/
def joinChunks (cs : List (List Nat)) : List Nat := (cs.map mkChunk).flatten

/-! ## Helper lemmas -/

lemma pyRound_dvd (m per : Nat) (hper : 0 < per) (h : per ∣ m) :
    pyRound m per = m / per := by
  obtain ⟨c, rfl⟩ := h
  simp [pyRound, Nat.mul_mod_right, hper]

lemma npReshape_not_dvd (l : List Nat) (per k : Nat) (h : ¬ per ∣ l.length) :
    npReshape l k per = .error .valueError := by
  unfold npReshape
  rw [if_neg]
  intro hEq
  exact h ⟨k, by rw [hEq, Nat.mul_comm]⟩

lemma npReshape_exact (l : List Nat) (per k : Nat) (hlen : l.length = k * per) :
    npReshape l k per =
      .ok ((List.range k).map (fun i => (l.drop (i * per)).take per)) := by
  unfold npReshape
  rw [if_pos hlen]

lemma reshape_iq_single (buffer : List Nat) (ndst : Nat) (hpos : 0 < ndst)
    (hlen : buffer.length = ndst * 4) :
    reshape_iq_side_info16 buffer ndst = .ok (some [buffer]) := by
  have hper : 0 < ndst * 4 := by omega
  have hround : pyRound buffer.length (ndst * 4) = 1 := by
    rw [hlen, pyRound_dvd _ _ hper ⟨1, by omega⟩, Nat.div_self hper]
  simp only [reshape_iq_side_info16]
  rw [if_neg (by omega), hround,
    npReshape_exact buffer (ndst * 4) 1 (by omega)]
  simp [List.range_succ, ← hlen, List.take_length]

/-! ## C1: invalid lengths at the decode entry points -/

/-- C1 counterexample.  The claim states that for a buffer whose word length
is not a multiple of the per-transaction word count, the CSI entry point
reshape_csi_side_info16 returns an explicit failure result rather than
raising an uncaught exception.  A 260-word buffer with num_eq = 0
(per-transaction count 256) makes the numpy reshape raise ValueError, and
the source does not catch it, so the exception escapes (modelled
Except.error): the CSI path crashes instead of returning a failure value. -/
theorem claim_C1_counterexample :
    reshape_csi_side_info16 (List.replicate 260 0) 0 = .error .valueError := rfl

/-- C1 amended: for every buffer whose 16-bit-word length is not an exact
multiple of the per-transaction word count, the IQ entry point
reshape_iq_side_info16 returns the explicit failure value None, while the
CSI entry point reshape_csi_side_info16 raises an uncaught ValueError
(its reshape is not wrapped in try/except). -/
theorem claim_C1_amended :
    (∀ (buffer : List Nat) (num_dma_symbol_per_trans : Nat),
       0 < num_dma_symbol_per_trans →
       ¬ (num_dma_symbol_per_trans * 4 ∣ buffer.length) →
       reshape_iq_side_info16 buffer num_dma_symbol_per_trans = .ok none) ∧
    (∀ (buffer : List Nat) (num_eq : Nat),
       ¬ ((CSI_HEADER_LEN_DMA_SYM + CSI_LEN_DMA_SYM + num_eq * EQUALIZER_LEN_DMA_SYM) * 4
           ∣ buffer.length) →
       reshape_csi_side_info16 buffer num_eq = .error .valueError) := by
  constructor
  · intro buffer ndst hpos hdvd
    simp only [reshape_iq_side_info16]
    rw [if_neg (by omega),
      npReshape_not_dvd buffer (ndst * 4) (pyRound buffer.length (ndst * 4)) hdvd]
  · intro buffer num_eq hdvd
    simp only [reshape_csi_side_info16]
    rw [npReshape_not_dvd buffer _ _ hdvd]

/-- C1 witness: both parts of the amended claim at concrete inputs (a 1-word
buffer against per-transaction counts 4 and 256). -/
theorem claim_C1_witness :
    reshape_iq_side_info16 [0] 1 = .ok none ∧
    reshape_csi_side_info16 [0] 0 = .error .valueError :=
  ⟨claim_C1_amended.1 [0] 1 (by decide) (by decide),
   claim_C1_amended.2 [0] 0 (by decide)⟩

/-! ## C5: frame count on valid buffers -/

/-- C5: for every buffer whose word length is an exact positive multiple
k * (num_dma_symbol_per_trans * 4) of the per-transaction word count, the
reshape step succeeds and reports exactly k frames, on both the CSI path
(which also returns the frame count and word count) and the IQ path (whose
reshaped array has k rows). -/
theorem claim_C5 :
    (∀ (buffer : List Nat) (num_eq k : Nat), 0 < k →
       buffer.length =
         k * ((CSI_HEADER_LEN_DMA_SYM + CSI_LEN_DMA_SYM + num_eq * EQUALIZER_LEN_DMA_SYM) * 4) →
       ∃ rows, reshape_csi_side_info16 buffer num_eq =
           .ok (rows, k,
             (CSI_HEADER_LEN_DMA_SYM + CSI_LEN_DMA_SYM + num_eq * EQUALIZER_LEN_DMA_SYM) * 4)
         ∧ rows.length = k) ∧
    (∀ (buffer : List Nat) (num_dma_symbol_per_trans k : Nat),
       0 < num_dma_symbol_per_trans → 0 < k →
       buffer.length = k * (num_dma_symbol_per_trans * 4) →
       ∃ rows, reshape_iq_side_info16 buffer num_dma_symbol_per_trans = .ok (some rows)
         ∧ rows.length = k) := by
  constructor
  · intro buffer num_eq k hk hlen
    have hper : 0 < (CSI_HEADER_LEN_DMA_SYM + CSI_LEN_DMA_SYM + num_eq * EQUALIZER_LEN_DMA_SYM) * 4 := by
      simp [CSI_HEADER_LEN_DMA_SYM, CSI_LEN_DMA_SYM, EQUALIZER_LEN_DMA_SYM]
    have hround : pyRound buffer.length
        ((CSI_HEADER_LEN_DMA_SYM + CSI_LEN_DMA_SYM + num_eq * EQUALIZER_LEN_DMA_SYM) * 4) = k := by
      rw [hlen, pyRound_dvd _ _ hper ⟨k, by rw [Nat.mul_comm]⟩, Nat.mul_div_cancel _ hper]
    refine ⟨(List.range k).map (fun i =>
        (buffer.drop
          (i * ((CSI_HEADER_LEN_DMA_SYM + CSI_LEN_DMA_SYM + num_eq * EQUALIZER_LEN_DMA_SYM) * 4))).take
          ((CSI_HEADER_LEN_DMA_SYM + CSI_LEN_DMA_SYM + num_eq * EQUALIZER_LEN_DMA_SYM) * 4)), ?_, ?_⟩
    · simp only [reshape_csi_side_info16]
      rw [hround, npReshape_exact buffer _ k hlen]
    · simp
  · intro buffer ndst k hpos hk hlen
    have hper : 0 < ndst * 4 := by omega
    have hround : pyRound buffer.length (ndst * 4) = k := by
      rw [hlen, pyRound_dvd _ _ hper ⟨k, by rw [Nat.mul_comm]⟩, Nat.mul_div_cancel _ hper]
    refine ⟨(List.range k).map (fun i =>
        (buffer.drop (i * (ndst * 4))).take (ndst * 4)), ?_, ?_⟩
    · simp only [reshape_iq_side_info16]
      rw [if_neg (by omega), hround, npReshape_exact buffer (ndst * 4) k hlen]
    · simp

/-- C5 witness: one CSI transaction of 256 words and one IQ buffer of two
8-word transactions. -/
theorem claim_C5_witness :
    (∃ rows, reshape_csi_side_info16 (List.replicate 256 0) 0 =
        .ok (rows, 1, (CSI_HEADER_LEN_DMA_SYM + CSI_LEN_DMA_SYM + 0 * EQUALIZER_LEN_DMA_SYM) * 4)
      ∧ rows.length = 1) ∧
    (∃ rows, reshape_iq_side_info16 (List.replicate 16 0) 2 = .ok (some rows)
      ∧ rows.length = 2) :=
  ⟨claim_C5.1 (List.replicate 256 0) 0 1 (by decide) (by decide),
   claim_C5.2 (List.replicate 16 0) 2 2 (by decide) (by decide) (by decide)⟩

/-! ## C9: coordinator loop termination with no frames -/

/-- C9 counterexample: the claim states continue_loop returns False for
every state with frame_idx = 0 and elapsed time of at least the 60 s grace
period (shutdown unset, finite sampling duration).  With
sampling_time = 1000 and elapsed = 70 the source falls through to
`return (TIMER() - start) < params.sampling_time`, which is True, so the
loop keeps running past the grace period. -/
theorem claim_C9_counterexample :
    ¬ (∀ (sampling_time elapsed : Int), sampling_time ≠ -1 → 60 ≤ elapsed →
         continue_loop sampling_time elapsed 0 false 60 = false) := by
  intro h
  exact absurd (h 1000 70 (by decide) (by decide)) (by decide)

/-- C9 amended: with the shutdown signal unset and a finite sampling
duration, continue_loop returns False for a state with frame_idx = 0
exactly when both the 60 s grace period and the sampling duration have
elapsed; in particular it returns False whenever elapsed is at least
max(60, sampling_time). -/
theorem claim_C9_amended (sampling_time elapsed : Int)
    (hfin : sampling_time ≠ -1) (hgrace : 60 ≤ elapsed)
    (hdur : sampling_time ≤ elapsed) :
    continue_loop sampling_time elapsed 0 false 60 = false := by
  have hc : ¬ (sampling_time = -1 ∨ ((0 : Nat) = 0 ∧ elapsed < 60)) := by
    rintro (h | ⟨-, h⟩)
    · exact hfin h
    · omega
  unfold continue_loop
  rw [if_neg (by simp), if_neg hc]
  simp only [decide_eq_false_iff_not, not_lt]
  exact hdur

/-- C9 witness: the amended claim at sampling_time = 100, elapsed = 100. -/
theorem claim_C9_witness : continue_loop 100 100 0 false 60 = false :=
  claim_C9_amended 100 100 (by decide) (by decide) (by decide)

/-! ## C3: IQ metadata word decoding -/

/-- C3 counterexample.  The claim places the 29-bit LO deca-Hz field at
bits 33-61 of the metadata word while also requiring bit 61 (the
capture-all-antenna flag) to be set; a 29-bit field starting at bit 33 would
end at bit 61, so its value could not be 100000 with bit 61 set, and the
usable reading of the claim puts the value 100000 at bit offset 33
(bits 33-60).  The decoder, however, reads the field from bit offset 32
(`iq_header >> 32` masked to 29 bits): on a transaction whose metadata word
is 2^61 + 100000 * 2^33 - which has bit 61 set and the value 100000 in bits
33-60 - it returns lo_freq = 2000000, not the claimed 1000000. -/
theorem claim_C3_counterexample :
    get_uint64 c3buf IQ_CAPTURE_LO_FREQ_IDX / 2 ^ 61 % 2 = 1 ∧
    get_uint64 c3buf IQ_CAPTURE_LO_FREQ_IDX / 2 ^ 33 % 2 ^ 28 = 100000 ∧
    parse_iq_side_info_header c3buf 3 0 =
      .ok (some ⟨[0], [2000000], [0], [1], 5⟩) ∧
    (2000000 : Nat) ≠ 1000000 :=
  ⟨by decide, by decide, rfl, by decide⟩

/-- C3 amended: for every single IQ transaction whose metadata word has bit
61 set and whose 29-bit LO field at bit offset 32 (bits 32-60) encodes the
value 100000, parse_iq_side_info_header decodes capture_all_antenna = 1 and
lo_freq = 1000000. -/
theorem claim_C3_amended (buffer : List Nat) (num_dma_symbol_per_trans iq_len : Nat)
    (hpos : 2 ≤ num_dma_symbol_per_trans)
    (hlen : buffer.length = num_dma_symbol_per_trans * 4)
    (hbit : get_uint64 buffer IQ_CAPTURE_LO_FREQ_IDX
        / 2 ^ IQ_CAPTURE_ALL_ANTENNA_OFFSET % 2 = 1)
    (hfield : get_uint64 buffer IQ_CAPTURE_LO_FREQ_IDX
        / 2 ^ IQ_CAPTURE_LO_FREQ_OFFSET % 2 ^ LO_FREQ_BIT_WIDTH = 100000) :
    ∃ h : IqHeader,
      parse_iq_side_info_header buffer num_dma_symbol_per_trans iq_len = .ok (some h) ∧
      h.capture_all_antenna = [1] ∧ h.lo_freq = [1000000] := by
  refine ⟨⟨[get_uint64 buffer IQ_CAPTURE_TIMESTAMP_IDX],
    [(get_uint64 buffer IQ_CAPTURE_LO_FREQ_IDX / 2 ^ IQ_CAPTURE_LO_FREQ_OFFSET
        % 2 ^ LO_FREQ_BIT_WIDTH) * 10],
    [get_uint64 buffer IQ_CAPTURE_LO_FREQ_IDX / 2 ^ IQ_CAPTURE_TRIGGER_SRC_OFFSET % 2],
    [get_uint64 buffer IQ_CAPTURE_LO_FREQ_IDX / 2 ^ IQ_CAPTURE_ALL_ANTENNA_OFFSET % 2],
    IQ_CAPTURE_IQ_IDX / 4 + iq_len + 1 + 1⟩, ?_, ?_, ?_⟩
  · simp only [parse_iq_side_info_header,
      reshape_iq_single buffer num_dma_symbol_per_trans (by omega) hlen]
    simp
  · simp [hbit]
  · simp [hfield]

/-- C3 witness: the amended claim at the concrete transaction whose metadata
word is 2^61 + 100000 * 2^32. -/
theorem claim_C3_witness :
    ∃ h : IqHeader,
      parse_iq_side_info_header
        (u16words 0 ++ u16words (2 ^ 61 + 100000 * 2 ^ 32) ++ u16words 0) 3 7 =
        .ok (some h) ∧
      h.capture_all_antenna = [1] ∧ h.lo_freq = [1000000] :=
  claim_C3_amended (u16words 0 ++ u16words (2 ^ 61 + 100000 * 2 ^ 32) ++ u16words 0)
    3 7 (by decide) (by decide) (by decide) (by decide)

/-! ## C4: CSI header timestamps -/

/-- C4: the claim (decoding a well-formed CSI buffer returns normally with
the 7 named timestamps, the first being 1 for the given header bytes) states
the documented intent, but the code crashes instead: in
parse_csi_side_info_header the loop `for i, name in csi_timestamp_names[1:]`
tuple-unpacks each name string into (i, name), which raises
"ValueError: too many values to unpack" on the first 24-character name
(an `enumerate` is missing).  On the concrete well-formed 1-frame buffer the
full decode therefore raises (modelled Except.error PyErr.valueError), even
though the first timestamp word it had already extracted equals 1 exactly as
the claim predicts. -/
theorem claim_C4_bug :
    parse_csi_side_info c4buf 0 CSI_TIMESTAMP_NAMES = .error .valueError ∧
    get_uint64 c4buf CSI_CAPTURE_TIMESTAMP_IDX = 1 :=
  ⟨rfl, by decide⟩

/-! ## C6: receive-loop timeout escalation -/

/-- C6 counterexample.  The claim states that any successful receive resets
the consecutive-timeout counter.  A successful receive of an empty datagram
is falsy (`if udp_data:`), so the whole handling block - including the
counter reset - is skipped: from a state with counter 3, the counter stays
3. -/
theorem claim_C6_counterexample :
    (recvStep 10 ⟨3, false, false, [], none, []⟩ (RecvOutcome.data [])).1.timeoutCount = 3 ∧
    (3 : Nat) ≠ 0 :=
  ⟨rfl, by decide⟩

/-- C6 amended: 11 consecutive Timeout outcomes (threshold 10) set both the
fault signal and the shutdown signal and the loop exits after exactly 11
receive attempts, i.e. before a 12th, whatever outcomes would follow; and
any successful receive of a NONEMPTY payload (with room in the queue)
resets the consecutive-timeout counter to 0. -/
theorem claim_C6_amended :
    (∀ (rest : List RecvOutcome) (cap : Option Nat),
       (udp_data_receiver 10 (initRecvState cap)
          (List.replicate 11 RecvOutcome.timeout ++ rest)).1.fault = true ∧
       (udp_data_receiver 10 (initRecvState cap)
          (List.replicate 11 RecvOutcome.timeout ++ rest)).1.shutdown = true ∧
       (udp_data_receiver 10 (initRecvState cap)
          (List.replicate 11 RecvOutcome.timeout ++ rest)).2 = 11) ∧
    (∀ (s : RecvState) (p : List Nat), p ≠ [] → isQueueFull s = false →
       (recvStep 10 s (RecvOutcome.data p)).1.timeoutCount = 0) := by
  constructor
  · intro rest cap
    exact ⟨rfl, rfl, rfl⟩
  · intro s p hp hfull
    match p, hp with
    | q :: p, _ =>
      simp [recvStep, hfull]

/-- C6 witness: the timeout scenario with an empty continuation trace and
the reset clause at a concrete state and payload. -/
theorem claim_C6_witness :
    ((udp_data_receiver 10 (initRecvState none)
        (List.replicate 11 RecvOutcome.timeout ++ [])).1.fault = true ∧
     (udp_data_receiver 10 (initRecvState none)
        (List.replicate 11 RecvOutcome.timeout ++ [])).1.shutdown = true ∧
     (udp_data_receiver 10 (initRecvState none)
        (List.replicate 11 RecvOutcome.timeout ++ [])).2 = 11) ∧
    (recvStep 10 (initRecvState none) (RecvOutcome.data [5])).1.timeoutCount = 0 :=
  ⟨claim_C6_amended.1 [] none,
   claim_C6_amended.2 (initRecvState none) [5] (by decide) (by decide)⟩

/-! ## C7: backpressure on a capacity-1 queue -/

/-- C7: the claim (second push signals a logged queue-full condition and the
producing loop terminates) states the intent of the dead handler
`except Queue.Full: logger.warning('Queue is full, dropping data'); break`,
but the name Queue.Full does not exist (multiprocessing.Queue is a bound
context method, not the queue class), so matching the handler raises
AttributeError; the loop still terminates - via the outer generic
`except Exception` handler - but the queue-full warning is never logged and
neither signal is set.  Concretely, with capacity 1 and two nonempty
datagrams and no intervening pop, the run ends after the 2nd receive with
only the generic receiver error logged, the second payload dropped, and
shutdown still unset. -/
theorem claim_C7_behavior :
    udp_data_receiver 10 (initRecvState (some 1))
      [RecvOutcome.data [1], RecvOutcome.data [2]] =
    ({ timeoutCount := 0, shutdown := false, fault := false, queue := [[1]],
       queueCap := some 1, log := [RecvLog.receiverError] }, 2) := rfl

/-! ## C2: CSI half-swap -/

lemma getD_map_range (m k : Nat) (f : Nat → Int) (hk : k < m) :
    ((List.range m).map f).getD k 0 = f k := by
  rw [List.getD_eq_getElem?_getD, List.getElem?_map, List.getElem?_range hk]
  rfl

lemma pySliceStep_getD (l : List Int) (start stop step k : Nat)
    (hk : k < (min stop l.length - start + (step - 1)) / step) :
    (pySliceStep l start stop step).getD k 0 = l.getD (start + k * step) 0 := by
  unfold pySliceStep
  exact getD_map_range _ _ _ hk

lemma pySliceStep_length (l : List Int) (start stop step : Nat) :
    (pySliceStep l start stop step).length
      = (min stop l.length - start + (step - 1)) / step := by
  simp [pySliceStep]

lemma getD_take (l : List Int) (m j : Nat) (h : j < m) :
    (l.take m).getD j 0 = l.getD j 0 := by
  rw [List.getD_eq_getElem?_getD, List.getD_eq_getElem?_getD, List.getElem?_take,
    if_pos h]

lemma getD_drop (l : List Int) (m j : Nat) :
    (l.drop m).getD j 0 = l.getD (m + j) 0 := by
  rw [List.getD_eq_getElem?_getD, List.getD_eq_getElem?_getD, List.getElem?_drop]

/-- Elementwise description of the half-swapped slice built by csiFromRow on
a well-formed row of 256 + 208 e words, for either plane start (32 for the
in-phase words, 33 for the quadrature words). -/
lemma swap_slice_getD (row : List Int) (e j start : Nat)
    (hn : row.length = 256 + 208 * e) (hj : j < 56)
    (hstart : start = 32 ∨ start = 33) :
    (((pySliceStep row start (row.length - 1) 4).drop 28).take 28
        ++ (pySliceStep row start (row.length - 1) 4).take 28).getD j 0
      = row.getD (start + 4 * ((j + 28) % 56)) 0 := by
  have hcount : (min (row.length - 1) row.length - start + (4 - 1)) / 4 = 56 + 52 * e := by
    rcases hstart with rfl | rfl <;> omega
  have hlen : (pySliceStep row start (row.length - 1) 4).length = 56 + 52 * e := by
    rw [pySliceStep_length, hcount]
  have hfirst :
      (((pySliceStep row start (row.length - 1) 4).drop 28).take 28).length = 28 := by
    rw [List.length_take, List.length_drop, hlen]
    omega
  rcases Nat.lt_or_ge j 28 with hj28 | hj28
  · rw [List.getD_append _ _ _ _ (by rw [hfirst]; exact hj28),
      getD_take _ _ _ hj28, getD_drop,
      pySliceStep_getD _ _ _ _ _ (by rw [hcount]; omega)]
    congr 1
    omega
  · rw [List.getD_append_right _ _ _ _ (by rw [hfirst]; omega), hfirst,
      getD_take _ _ _ (by omega),
      pySliceStep_getD _ _ _ _ _ (by rw [hcount]; omega)]
    congr 1
    omega

/-- C2 counterexample.  The claim states that output indices [0:26] of the
decoded CSI vector hold input samples [26:56]; in particular decoded sample
0 would be input sample 26 (whose in-phase word sits at row index
32 + 4 * 26 = 136).  On the distinct-valued row 0..255 the decoder instead
places input sample 28 there: the first decoded in-phase value is 144, not
136 (the split point is CSI_LEN_HALF_DMA_SYM = 28, not 26). -/
theorem claim_C2_counterexample :
    (csiFromRow row256).1.getD 0 0 ≠ row256.getD (4 * CSI_HEADER_LEN_DMA_SYM + 4 * 26) 0 ∧
    (csiFromRow row256).1.getD 0 0 = 144 ∧
    row256.getD (4 * CSI_HEADER_LEN_DMA_SYM + 4 * 26) 0 = 136 :=
  ⟨by decide, by decide, by decide⟩

/-- C2 amended: for every CSI transaction row (any number of equalizers),
the decoded CSI complex vector is the payload's 56 interleaved I/Q samples
with the left/right half-swap at CSI_LEN_HALF_DMA_SYM = 28: decoded sample j
is input sample (j + 28) mod 56, i.e. output [0:28] holds input [28:56] and
output [28:56] holds input [0:28]. -/
theorem claim_C2_amended (row : List Int) (num_eq j : Nat)
    (hrow : row.length
      = (CSI_HEADER_LEN_DMA_SYM + CSI_LEN_DMA_SYM + num_eq * EQUALIZER_LEN_DMA_SYM) * 4)
    (hj : j < CSI_LEN_DMA_SYM) :
    (csiFromRow row).1.getD j 0
      = row.getD (4 * CSI_HEADER_LEN_DMA_SYM + 4 * ((j + CSI_LEN_HALF_DMA_SYM) % CSI_LEN_DMA_SYM)) 0 ∧
    (csiFromRow row).2.getD j 0
      = row.getD (4 * CSI_HEADER_LEN_DMA_SYM + 1 + 4 * ((j + CSI_LEN_HALF_DMA_SYM) % CSI_LEN_DMA_SYM)) 0 := by
  have hn : row.length = 256 + 208 * num_eq := by
    simp only [CSI_HEADER_LEN_DMA_SYM, CSI_LEN_DMA_SYM, EQUALIZER_LEN_DMA_SYM] at hrow
    omega
  simp only [CSI_LEN_DMA_SYM] at hj
  simp only [csiFromRow, CSI_HEADER_LEN_DMA_SYM, CSI_LEN_HALF_DMA_SYM, CSI_LEN_DMA_SYM]
  constructor
  · have := swap_slice_getD row num_eq j (4 * 8) hn hj (by norm_num)
    simpa using this
  · have := swap_slice_getD row num_eq j (4 * 8 + 1) hn hj (by norm_num)
    simpa [Nat.add_assoc] using this

/-- C2 witness: the amended claim at the distinct-valued one-transaction row
(num_eq = 0) and output index 0: decoded sample 0 is input sample 28. -/
theorem claim_C2_witness :
    (csiFromRow row256).1.getD 0 0
      = row256.getD (4 * CSI_HEADER_LEN_DMA_SYM + 4 * ((0 + CSI_LEN_HALF_DMA_SYM) % CSI_LEN_DMA_SYM)) 0 ∧
    (csiFromRow row256).2.getD 0 0
      = row256.getD (4 * CSI_HEADER_LEN_DMA_SYM + 1 + 4 * ((0 + CSI_LEN_HALF_DMA_SYM) % CSI_LEN_DMA_SYM)) 0 :=
  claim_C2_amended row256 0 0 (by decide) (by decide)

/-! ## C8 and C10: chunked file reader -/

lemma u64le_u64bytes (n : Nat) (h : n < 2 ^ 64) : u64le (u64bytes n) = n := by
  simp [u64le, u64bytes, List.getD]
  omega

lemma read_nil : read_data_from_file [] = .ok [] := by
  rw [read_data_from_file]
  simp

lemma take_app (l t : List Nat) : (l ++ t).take l.length = l := by
  induction l with
  | nil => rfl
  | cons a l ih => simp [ih]

lemma drop_app (l t : List Nat) : (l ++ t).drop l.length = t := by
  induction l with
  | nil => rfl
  | cons a l ih => simp [ih]

lemma read_skip (a b c d : Nat) (tail : List Nat)
    (hm : u32le [a, b, c, d] ≠ HEADER) :
    read_data_from_file (a :: b :: c :: d :: tail) = read_data_from_file tail := by
  have ht4 : List.take 4 (a :: b :: c :: d :: tail) = [a, b, c, d] := rfl
  have hd4 : List.drop 4 (a :: b :: c :: d :: tail) = tail := rfl
  rw [read_data_from_file, ht4, hd4, if_neg (by simp), if_neg (by simp), if_neg hm]

lemma read_short_header (t : List Nat) (h0 : t ≠ []) (h4 : t.length < 4) :
    read_data_from_file t = .error .structError := by
  rw [read_data_from_file, if_neg h0, if_pos h4]

lemma read_short_size (s : List Nat) (h0 : s ≠ []) (h8 : s.length < 8) :
    read_data_from_file (headerBytes ++ s) = .error .structError := by
  have hfile : headerBytes ++ s = 0xEF :: 0xBE :: 0xAD :: 0xDE :: s := rfl
  have ht4 : List.take 4 (0xEF :: 0xBE :: 0xAD :: 0xDE :: s) = headerBytes := rfl
  have hd4 : List.drop 4 (0xEF :: 0xBE :: 0xAD :: 0xDE :: s) = s := rfl
  rw [hfile, read_data_from_file, ht4, hd4, if_neg (by simp), if_neg (by simp),
    if_pos (by decide), if_neg h0, if_pos h8]

lemma read_chunk (p tail : List Nat) (hp : p.length < 2 ^ 64) :
    read_data_from_file (mkChunk p ++ tail)
      = match read_data_from_file tail with
        | .ok l => .ok (p :: l)
        | .error e => .error e := by
  have hfile : mkChunk p ++ tail
      = 0xEF :: 0xBE :: 0xAD :: 0xDE :: (u64bytes p.length ++ (p ++ tail)) := by
    simp [mkChunk, headerBytes]
  have ht4 : List.take 4 (0xEF :: 0xBE :: 0xAD :: 0xDE :: (u64bytes p.length ++ (p ++ tail)))
      = [0xEF, 0xBE, 0xAD, 0xDE] := rfl
  have hd4 : List.drop 4 (0xEF :: 0xBE :: 0xAD :: 0xDE :: (u64bytes p.length ++ (p ++ tail)))
      = u64bytes p.length ++ (p ++ tail) := rfl
  have ht8 : List.take 8 (u64bytes p.length ++ (p ++ tail)) = u64bytes p.length := rfl
  have hd8 : List.drop 8 (u64bytes p.length ++ (p ++ tail)) = p ++ tail := rfl
  rw [hfile, read_data_from_file, ht4, hd4, ht8, hd8, u64le_u64bytes _ hp,
    take_app, drop_app, if_neg (by simp), if_neg (by simp), if_pos (by decide),
    if_neg (by simp [u64bytes]), if_neg (by simp [u64bytes]), if_pos rfl]

lemma read_join_err (cs : List (List Nat)) (t : List Nat)
    (hcs : ∀ p ∈ cs, p.length < 2 ^ 64) (e : PyErr)
    (ht : read_data_from_file t = .error e) :
    read_data_from_file (joinChunks cs ++ t) = .error e := by
  induction cs with
  | nil => simpa [joinChunks]
  | cons p cs ih =>
    have h1 : joinChunks (p :: cs) ++ t = mkChunk p ++ (joinChunks cs ++ t) := by
      simp [joinChunks]
    rw [h1, read_chunk _ _ (hcs p (by simp)),
      ih (fun q hq => hcs q (by simp [hq]))]

/-- C8: for every chunked file made of one well-formed chunk, then a 4-byte
corrupted header differing from the magic value, then one more well-formed
chunk, read_data_from_file returns exactly the 2 well-formed payloads,
skipping the corrupted 4 bytes and not aborting. -/
theorem claim_C8 (p1 p2 junk : List Nat)
    (h1 : p1.length < 2 ^ 64) (h2 : p2.length < 2 ^ 64)
    (hj : junk.length = 4) (hmagic : u32le junk ≠ HEADER) :
    read_data_from_file (mkChunk p1 ++ (junk ++ mkChunk p2)) = .ok [p1, p2] := by
  obtain ⟨a, b, c, d, rfl⟩ : ∃ a b c d, junk = [a, b, c, d] := by
    match junk, hj with
    | [a, b, c, d], _ => exact ⟨a, b, c, d, rfl⟩
  rw [read_chunk _ _ h1]
  have hjunk : ([a, b, c, d] : List Nat) ++ mkChunk p2 = a :: b :: c :: d :: mkChunk p2 := rfl
  rw [hjunk, read_skip a b c d _ hmagic, ← List.append_nil (mkChunk p2),
    read_chunk _ _ h2, read_nil]

/-- C8 witness: payloads [1] and [2, 3] around the corrupted header
[0, 0, 0, 0]. -/
theorem claim_C8_witness :
    read_data_from_file (mkChunk [1] ++ ([0, 0, 0, 0] ++ mkChunk [2, 3])) = .ok [[1], [2, 3]] :=
  claim_C8 [1] [2, 3] [0, 0, 0, 0] (by decide) (by decide) (by decide) (by decide)

/-- C10: read_data_from_file stops cleanly only on a zero-byte header or
length read; for every file consisting of well-formed chunks followed by
1-3 trailing bytes where the 4-byte header is expected, or by a magic header
and 1-7 trailing bytes where the 8-byte length field is expected,
struct.unpack raises struct.error and the whole call aborts (losing the
payloads collected so far) instead of returning them. -/
theorem claim_C10 (cs : List (List Nat)) (t s : List Nat)
    (hcs : ∀ p ∈ cs, p.length < 2 ^ 64)
    (ht0 : t ≠ []) (ht4 : t.length < 4)
    (hs0 : s ≠ []) (hs8 : s.length < 8) :
    read_data_from_file (joinChunks cs ++ t) = .error .structError ∧
    read_data_from_file (joinChunks cs ++ (headerBytes ++ s)) = .error .structError :=
  ⟨read_join_err cs t hcs _ (read_short_header t ht0 ht4),
   read_join_err cs (headerBytes ++ s) hcs _ (read_short_size s hs0 hs8)⟩

/-- C10 witness: one well-formed chunk with payload [7], then a truncated
header [1] (resp. a magic header with a truncated 2-byte length field). -/
theorem claim_C10_witness :
    read_data_from_file (joinChunks [[7]] ++ [1]) = .error .structError ∧
    read_data_from_file (joinChunks [[7]] ++ (headerBytes ++ [1, 2])) = .error .structError :=
  claim_C10 [[7]] [1] [1, 2] (by decide) (by decide) (by decide) (by decide) (by decide)
